import Mathlib

/-!
Verification of the Charon closed-loop controller
(src/controller/adaptive_control.py and src/controller/controller.py).

Numbers: Python floats (sensor values, timestamps, gains) are embedded as
rationals; machine integers (replica counts) as Int. Python dicts keyed by
sensor-name strings are embedded as association lists with a replace-or-append
insert matching dict assignment semantics. Side effects on the Kubernetes
orchestrator are made observable: each actuation returns the list of patches
it issued, and a Boolean recording whether an exception escaped.
-/

namespace Charon

/-- Substring containment on character lists: does the first list occur as a
prefix of the second?  Embeds one step of the Python `needle in haystack`
check. -/
def charsStartWith : List Char → List Char → Bool
  | [], _ => true
  | _ :: _, [] => false
  | a :: as, b :: bs => a == b && charsStartWith as bs

/-- Does the first list occur contiguously anywhere inside the second? -/
def charsContain (needle : List Char) : List Char → Bool
  | [] => charsStartWith needle []
  | b :: rest => charsStartWith needle (b :: rest) || charsContain needle rest

/-- Python `needle in hay` for strings. -/
def strContains (hay needle : String) : Bool :=
  charsContain needle.data hay.data

/-- A telemetry message as enqueued by the NRM callback:
`(sensor, timestamp, value)`.  The callback drops the `scope` argument. -/
structure Msg where
  sensor : String
  timestamp : ℚ
  value : ℚ
deriving DecidableEq, Repr

/-- `Controller._nrm_message_receiver_callback`: decodes the sensor name,
converts the nanosecond timestamp to seconds, and enqueues
`(sensor, timestamp, value)`.  The `scope` parameter is unused. -/
def nrm_callback (sensor : String) (time_ns : Int) (scope : String) (value : ℚ) : Msg :=
  { sensor := sensor, timestamp := (time_ns : ℚ) / 1000000000, value := value }

/-- Python dict assignment `d[k] = v` on an association list: replace the
first entry with key `k`, or append `(k, v)` if absent. -/
def dictInsert (k : String) (v : ℚ × ℚ) : List (String × ℚ × ℚ) → List (String × ℚ × ℚ)
  | [] => [(k, v)]
  | p :: rest => if p.1 = k then (k, v) :: rest else p :: dictInsert k v rest

/-- Python dict lookup `d[k]` (first entry with key `k`). -/
def dictLookup (k : String) : List (String × ℚ × ℚ) → Option (ℚ × ℚ)
  | [] => none
  | p :: rest => if p.1 = k then some p.2 else dictLookup k rest

/-- The dict has at most one entry per sensor-name key. -/
@[reducible] def keysNodup (d : List (String × ℚ × ℚ)) : Prop :=
  (d.map (fun p => p.1)).Nodup

/-- Windowed aggregation from `Controller.run`:
`sum(value for sensor, (ts, value) in d.items() if now - ts <= window)`. -/
def sumRecent (d : List (String × ℚ × ℚ)) (now window : ℚ) : ℚ :=
  ((d.filter (fun p => now - p.2.1 ≤ window)).map (fun p => p.2.2)).sum

/-- Default deployment name (`--deployment-name`, default "consumer"). -/
def deployment_name : String := "consumer"

/-- Reduced-precision model variant, `models[0]` in the source. -/
def M0 : String := deployment_name ++ "-fp16"

/-- Full-precision model variant, `models[1]` in the source; the initial
`current_model`. -/
def M1 : String := deployment_name ++ "-fp32"

/-- `self.models` of the adaptive controller. -/
def models : List String := [M0, M1]

/-- Adaptive controller gains and capacity (`adaptive_control.py`). -/
def target_fps : ℚ := 600

def Kp_adaptive : ℚ := 1/2

def Kd_adaptive : ℚ := 1

def capacity_adaptive : ℚ := 64

/-- Result of `Controller.pid_control`: the returned triple
`(containers_needed_total, error, control_signal)` plus the assignment
`self.previous_error = error`. -/
structure PidOut where
  target : Int
  err : ℚ
  control_signal : ℚ
  new_previous_error : ℚ
deriving DecidableEq, Repr

/-- `Controller.pid_control` (identical in both controller files up to the
constants, which are passed here as arguments):
```
diff_error = error - previous_error
control_signal = Kp * error + Kd * diff_error
containers_needed_total = max(1, control_signal // CAPACITY)
previous_error = error
return containers_needed_total, error, control_signal
```
Python float floor-division `//` is the mathematical floor of the exact
quotient, embedded as `Int.floor`. -/
def pid_control (kp kd capacity previous_error error : ℚ) : PidOut :=
  let diff_error := error - previous_error
  let control_signal := kp * error + kd * diff_error
  let containers_needed_total : Int := max 1 ⌊control_signal / capacity⌋
  { target := containers_needed_total
    err := error
    control_signal := control_signal
    new_previous_error := error }

/-- Mutable state of the adaptive controller that the claims observe:
the two sensor dicts, `previous_error`, `current_replica`,
`current_model` and `current_model_index`. -/
structure CtrlState where
  queued_frames : List (String × ℚ × ℚ)
  processing_rates : List (String × ℚ × ℚ)
  previous_error : ℚ
  current_replica : Int
  current_model : String
  current_model_index : Nat
deriving DecidableEq, Repr

/-- Outcome of one `patch_namespaced_deployment` call: the orchestrator
either applies the patch or raises. -/
inductive PatchOutcome
  | success
  | failure
deriving DecidableEq, Repr

/-- Result of an actuation path: the controller state afterwards, the list of
patches `(model, replicas)` the orchestrator applied, and whether an
exception escaped (the source has no try/except around actuation). -/
structure ActionOut where
  state : CtrlState
  patches : List (String × Int)
  raised : Bool
deriving DecidableEq, Repr

/-- `Controller.take_action(target, model)` of the adaptive controller: if
`target == self.current_replica` return without patching; otherwise read and
patch the deployment, and only on success execute
`self.current_replica = target`.  A raising patch leaves the state unchanged
and propagates (`raised = true`). -/
def take_action (st : CtrlState) (target : Int) (model : String)
    (outcome : PatchOutcome) : ActionOut :=
  if target = st.current_replica then
    { state := st, patches := [], raised := false }
  else
    match outcome with
    | .success =>
        { state := { st with current_replica := target }
          patches := [(model, target)]
          raised := false }
    | .failure =>
        { state := st, patches := [], raised := true }

/-- Tail of the adaptive control block after the optional model swap:
`frames_needed_to_process = target_fps + total_queued_frames`, the PD step,
and `take_action(total_needed, model=current_model)`. -/
def finish_control (st : CtrlState) (total_queued : ℚ)
    (acc : List (String × Int)) (o2 : PatchOutcome) : ActionOut :=
  let pid := pid_control Kp_adaptive Kd_adaptive capacity_adaptive
    st.previous_error (target_fps + total_queued)
  let st2 := { st with previous_error := pid.new_previous_error }
  let a2 := take_action st2 pid.target st.current_model o2
  { state := a2.state, patches := acc ++ a2.patches, raised := a2.raised }

/-- The control block of `Controller.run` in `adaptive_control.py`, executed
when `now - last_control >= 2`: aggregate the two sensor dicts over a
2-second window; skip the tick when the total processing rate is `0`; swap
`fp32 → fp16` when `total_queued_frames > 6000` while on `models[1]`
(draining the outgoing model with `take_action(0, current_model)` before
updating the model index); then feed `target_fps + total_queued_frames` into
the PD law and actuate the (possibly new) current model.  `o1` is the
orchestrator outcome of the drain patch, `o2` of the final patch. -/
def control_step (st : CtrlState) (now : ℚ) (o1 o2 : PatchOutcome) : ActionOut :=
  let total_queued := sumRecent st.queued_frames now 2
  let total_rate := sumRecent st.processing_rates now 2
  if total_rate = 0 then
    { state := st, patches := [], raised := false }
  else
    if total_queued > 6000 ∧ st.current_model = M1 then
      let a1 := take_action st 0 st.current_model o1
      if a1.raised then
        { state := a1.state, patches := a1.patches, raised := true }
      else
        let idx := (a1.state.current_model_index + 1) % models.length
        let st1 := { a1.state with
          current_model_index := idx
          current_model := models.getD idx "" }
        finish_control st1 total_queued a1.patches o2
    else
      finish_control st total_queued [] o2

/-- One pass of the inner message-drain loop of `Controller.run`: store the
message into `queued_frames` and/or `processing_rates` according to the
substring tests.  The store happens unconditionally; `should_break` only
decides whether the loop exits afterwards. -/
def drainUpdate (st : CtrlState) (m : Msg) : CtrlState :=
  let st1 :=
    if strContains m.sensor "framesqueued" then
      { st with queued_frames := dictInsert m.sensor (m.timestamp, m.value) st.queued_frames }
    else st
  if strContains m.sensor "frameprocessingrate" then
    { st1 with processing_rates := dictInsert m.sensor (m.timestamp, m.value) st1.processing_rates }
  else st1

/-- One iteration of the inner `while True` drain loop.  An empty pending
queue models `queue.Empty`, on which the source executes `continue`: nothing
changes and the loop does not exit.  Otherwise the head message is stored and
the loop exits exactly when `timestamp > now` (`should_break`). -/
def drain_iter (now : ℚ) : List Msg × CtrlState → (List Msg × CtrlState) × Bool
  | ([], st) => (([], st), false)
  | (m :: rest, st) => ((rest, drainUpdate st m), decide (m.timestamp > now))

/-- `n` iterations of the drain loop, stopping when an iteration exits.  The
Boolean reports whether the loop exited within `n` iterations. -/
def drain_steps (now : ℚ) : Nat → List Msg × CtrlState → (List Msg × CtrlState) × Bool
  | 0, s => (s, false)
  | n + 1, s =>
    let r := drain_iter now s
    if r.2 then r else drain_steps now n r.1

/-- Base controller (`controller.py`) observable state. -/
structure BaseState where
  queued_frames : List (String × ℚ × ℚ)
  previous_error : ℚ
  current_replica : Int
deriving DecidableEq, Repr

/-- Result of the base controller actuation. -/
structure BaseOut where
  state : BaseState
  patches : List Int
  raised : Bool
deriving DecidableEq, Repr

/-- `Controller.take_action(target)` of `controller.py` (deployment fixed, so
patches carry only the replica count). -/
def base_take_action (st : BaseState) (target : Int) (o : PatchOutcome) : BaseOut :=
  if target = st.current_replica then
    { state := st, patches := [], raised := false }
  else
    match o with
    | .success =>
        { state := { st with current_replica := target }
          patches := [target]
          raised := false }
    | .failure =>
        { state := st, patches := [], raised := true }

/-- The control block of `Controller.run` in `controller.py`, executed when
`now - last_control >= 5`: sum `queued_frames` over a 5-second window and
feed the sum directly into the PD law (`Kp = 1`, `Kd = 3`,
`CONTAINER_CAPACITY = 200`); there is no processing-rate skip, no model
logic, and no `target_fps` term. -/
def base_control_step (st : BaseState) (now : ℚ) (o : PatchOutcome) : BaseOut :=
  let total_queued := sumRecent st.queued_frames now 5
  let pid := pid_control 1 3 200 st.previous_error total_queued
  let st2 := { st with previous_error := pid.new_previous_error }
  base_take_action st2 pid.target o

/-! ### Helper lemmas (shared) -/

/-- The `previous_error` recorded by the PD step is the error it was fed. -/
theorem pid_new_previous_error (kp kd capacity p e : ℚ) :
    (pid_control kp kd capacity p e).new_previous_error = e := rfl

/-- `take_action` never touches `previous_error`, whatever the outcome. -/
theorem take_action_previous_error (st : CtrlState) (t : Int) (model : String)
    (o : PatchOutcome) :
    (take_action st t model o).state.previous_error = st.previous_error := by
  unfold take_action
  split
  · rfl
  · cases o <;> rfl

/-- A successful orchestrator call never raises. -/
theorem take_action_success_not_raised (st : CtrlState) (t : Int) (model : String) :
    (take_action st t model .success).raised = false := by
  unfold take_action
  split <;> rfl

/-- The `previous_error` stored by `finish_control` is exactly the error fed
into the PD law, `target_fps + total_queued`. -/
theorem finish_control_previous_error (s : CtrlState) (q : ℚ)
    (acc : List (String × Int)) (o2 : PatchOutcome) :
    (finish_control s q acc o2).state.previous_error = target_fps + q := by
  simp [finish_control, take_action_previous_error, pid_control]

/-- Looking up the inserted key returns the inserted sample, whatever was
stored before. -/
theorem dictLookup_dictInsert_self (k : String) (v : ℚ × ℚ) :
    ∀ d, dictLookup k (dictInsert k v d) = some v
  | [] => by simp [dictInsert, dictLookup]
  | p :: rest => by
      by_cases h : p.1 = k
      · simp [dictInsert, dictLookup, h]
      · simp [dictInsert, dictLookup, h, dictLookup_dictInsert_self k v rest]

/-- `dictInsert` replaces the first entry with the same key, or appends: the
key list either stays unchanged or grows by the new key at the end. -/
theorem keys_dictInsert (k : String) (v : ℚ × ℚ) :
    ∀ d : List (String × ℚ × ℚ),
      (dictInsert k v d).map (fun p => p.1) =
        if k ∈ d.map (fun p => p.1) then d.map (fun p => p.1)
        else d.map (fun p => p.1) ++ [k]
  | [] => by simp [dictInsert]
  | p :: rest => by
      by_cases h : p.1 = k
      · simp [dictInsert, h]
      · have ih := keys_dictInsert k v rest
        have hne : ¬(k = p.1) := fun hk => h hk.symm
        by_cases hm : k ∈ rest.map (fun p => p.1)
        · simp [dictInsert, h, hm, hne, ih]
        · simp [dictInsert, h, hm, hne, ih]

/-- `dictInsert` preserves key uniqueness. -/
theorem keysNodup_dictInsert (k : String) (v : ℚ × ℚ)
    (d : List (String × ℚ × ℚ)) (h : keysNodup d) :
    keysNodup (dictInsert k v d) := by
  unfold keysNodup at h ⊢
  rw [keys_dictInsert]
  split
  · exact h
  · next hm =>
      rw [List.nodup_append]
      exact ⟨h, List.nodup_singleton k, by
        intro a ha hb
        rw [List.mem_singleton] at hb
        exact hm (hb ▸ ha)⟩

/-- Effect of one drain pass on the `queued_frames` dict. -/
theorem drainUpdate_queued (st : CtrlState) (m : Msg) :
    (drainUpdate st m).queued_frames =
      if strContains m.sensor "framesqueued" then
        dictInsert m.sensor (m.timestamp, m.value) st.queued_frames
      else st.queued_frames := by
  unfold drainUpdate
  by_cases h1 : strContains m.sensor "framesqueued" <;>
    by_cases h2 : strContains m.sensor "frameprocessingrate" <;>
      simp [h1, h2]

/-- `take_action` of the base controller never touches `previous_error`. -/
theorem base_take_action_previous_error (st : BaseState) (t : Int) (o : PatchOutcome) :
    (base_take_action st t o).state.previous_error = st.previous_error := by
  unfold base_take_action
  split
  · rfl
  · cases o <;> rfl

/-- A drain pass on a message stamped at or before `now` stores it and keeps
looping. -/
theorem drain_iter_cons_le (now : ℚ) (st : CtrlState) (m : Msg) (rest : List Msg)
    (h : m.timestamp ≤ now) :
    drain_iter now (m :: rest, st) = ((rest, drainUpdate st m), false) := by
  simp [drain_iter, not_lt.mpr h]

/-- A drain pass on a future-stamped message stores it and signals exit. -/
theorem drain_iter_cons_gt (now : ℚ) (st : CtrlState) (m : Msg) (rest : List Msg)
    (h : now < m.timestamp) :
    drain_iter now (m :: rest, st) = ((rest, drainUpdate st m), true) := by
  simp [drain_iter, h]

/-- Fuelled drain: a message stamped at or before `now` is consumed and the
drain continues with the rest. -/
theorem drain_steps_cons_le (now : ℚ) (st : CtrlState) (m : Msg) (rest : List Msg)
    (n : Nat) (h : m.timestamp ≤ now) :
    drain_steps now (n + 1) (m :: rest, st) = drain_steps now n (rest, drainUpdate st m) := by
  simp [drain_steps, drain_iter_cons_le now st m rest h]

/-! ### Claims -/

/-- Claim C1: the PD step is a deterministic function of
`(error, previous_error, kp, kd, capacity)`: it computes
`diff = error - previous_error`, `u = kp*error + kd*diff`, returns
`(target, error, u)` with `target = max(1, floor(u / capacity))` and new
`previous_error = error`; the returned target is at least `1` for every
input. -/
theorem pid_control_spec (kp kd capacity previous_error error : ℚ) :
    pid_control kp kd capacity previous_error error =
      { target := max 1 ⌊(kp * error + kd * (error - previous_error)) / capacity⌋
        err := error
        control_signal := kp * error + kd * (error - previous_error)
        new_previous_error := error } ∧
    1 ≤ (pid_control kp kd capacity previous_error error).target :=
  ⟨rfl, le_max_left 1 _⟩

/-- Claim C2: when the aggregated processing rate over the window is `0`, the
control tick is skipped entirely: the state (in particular
`previous_error`) is unchanged, the PD law is not evaluated, and no
orchestrator patch is issued. -/
theorem zero_rate_skips_tick (st : CtrlState) (now : ℚ) (o1 o2 : PatchOutcome)
    (h : sumRecent st.processing_rates now 2 = 0) :
    control_step st now o1 o2 = { state := st, patches := [], raised := false } := by
  simp [control_step, h]

/-- Concrete instantiation for C2: no processing-rate sample at all. -/
def c2state : CtrlState :=
  { queued_frames := [("framesqueuedA", 100, 250)]
    processing_rates := []
    previous_error := 7
    current_replica := 3
    current_model := M1
    current_model_index := 1 }

/-- Witness for C2 at a concrete state with an empty processing-rate dict. -/
theorem zero_rate_skips_tick_witness :
    sumRecent c2state.processing_rates 100 2 = 0 ∧
    control_step c2state 100 .success .success =
      { state := c2state, patches := [], raised := false } :=
  ⟨by decide, zero_rate_skips_tick c2state 100 .success .success (by decide)⟩

/-- Claim C3: actuation is a no-op under hysteresis: a call whose target equals the
stored `current_replica` issues no patch, and two consecutive calls with the
same target issue exactly the patches of the first call (one patch when the
target differs from the stored count, none otherwise), because a successful
first call records the target in `current_replica`. -/
theorem take_action_hysteresis (st : CtrlState) (target : Int) (model : String) :
    (take_action st target model .success).patches =
      (if target = st.current_replica then [] else [(model, target)]) ∧
    (take_action (take_action st target model .success).state target model .success).patches
      = [] := by
  by_cases h : target = st.current_replica
  · simp [take_action, h]
  · simp [take_action, h]

/-- Claim C9: with an empty ingress queue (silent or disconnected bus), the inner
drain loop of `Controller.run` never exits: `queue.get` raises `queue.Empty`
and the handler executes `continue`, retrying forever, for any number of
iterations.  The control loop therefore never reaches the aggregation step
on a silent bus. -/
theorem drain_empty_never_exits (now : ℚ) (st : CtrlState) (n : Nat) :
    drain_steps now n ([], st) = (([], st), false) := by
  induction n with
  | zero => rfl
  | succ n ih => simpa [drain_steps, drain_iter] using ih

/-- Counterexample for C4: in the base controller (`controller.py`) the
error fed to the PD law is the windowed backlog sum alone (`800` here), not
`target_fps + q = 1400`: the base variant has no `target_fps` term at all. -/
def c4base : BaseState :=
  { queued_frames := [("framesqueuedA", 100, 800)]
    previous_error := 0
    current_replica := 1 }

/-- Claim C4 counterexample: the base control step stores `previous_error = 800`
(the error it fed to the PD law), which differs from `600 + 800`. -/
theorem base_error_lacks_target_fps :
    (base_control_step c4base 100 .success).state.previous_error = 800 ∧
    (800 : ℚ) ≠ 600 + 800 := by
  constructor
  · rw [base_control_step, base_take_action_previous_error]
    norm_num [sumRecent, c4base, pid_control]
  · norm_num

/-- Claim C4 (amended): on every evaluated tick the adaptive controller feeds
`target_fps + total_queued_frames` into the PD law, while the base
controller feeds the windowed backlog sum alone. -/
theorem error_fed_to_pid (st : CtrlState) (now : ℚ) (o2 : PatchOutcome)
    (bst : BaseState) (bnow : ℚ) (bo : PatchOutcome)
    (hrate : sumRecent st.processing_rates now 2 ≠ 0) :
    (control_step st now .success o2).state.previous_error =
      target_fps + sumRecent st.queued_frames now 2 ∧
    (base_control_step bst bnow bo).state.previous_error =
      sumRecent bst.queued_frames bnow 5 := by
  constructor
  · by_cases hswap : sumRecent st.queued_frames now 2 > 6000 ∧ st.current_model = M1
    · simp [control_step, hrate, hswap, take_action_success_not_raised,
        finish_control_previous_error]
    · simp [control_step, hrate, hswap, finish_control_previous_error]
  · rw [base_control_step, base_take_action_previous_error]
    exact pid_new_previous_error 1 3 200 bst.previous_error _

/-- Concrete adaptive state for the C4 witness. -/
def c4st : CtrlState :=
  { queued_frames := [("framesqueuedB", 100, 800)]
    processing_rates := [("frameprocessingrateB", 100, 100)]
    previous_error := 0
    current_replica := 1
    current_model := M1
    current_model_index := 1 }

/-- Concrete base state for the C4 witness. -/
def c4bst : BaseState :=
  { queued_frames := [("framesqueuedC", 100, 800)]
    previous_error := 0
    current_replica := 1 }

/-- Witness for the amended C4 at concrete states. -/
theorem error_fed_to_pid_witness :
    sumRecent c4st.processing_rates 100 2 ≠ 0 ∧
    ((control_step c4st 100 .success .success).state.previous_error =
        target_fps + sumRecent c4st.queued_frames 100 2 ∧
      (base_control_step c4bst 100 .success).state.previous_error =
        sumRecent c4bst.queued_frames 100 5) :=
  ⟨by norm_num [sumRecent, c4st],
    error_fed_to_pid c4st 100 .success c4bst 100 .success (by norm_num [sumRecent, c4st])⟩

/-- Concrete state for the C5 counterexample: backlog above the high-water
mark while on the full-precision model. -/
def c5state : CtrlState :=
  { queued_frames := [("framesqueuedS", 100, 7000)]
    processing_rates := [("frameprocessingrateS", 100, 50)]
    previous_error := 0
    current_replica := 1
    current_model := M1
    current_model_index := 1 }

/-- Claim C5 counterexample: on the swap tick itself the controller, after
draining `M1` with `(0, M1)`, immediately actuates the NEW model: the
second patch of the very same tick targets `M0` (here with the PD output
`178`).  Actuation of `M0` does not wait for the next tick. -/
theorem swap_tick_actuates_new_model :
    (control_step c5state 100 .success .success).patches = [(M1, 0), (M0, 178)] ∧
    M0 ≠ M1 := by
  constructor
  · norm_num [control_step, finish_control, take_action, pid_control, sumRecent,
      c5state, target_fps, Kp_adaptive, Kd_adaptive, capacity_adaptive, models]
  · decide

/-- Claim C5 (amended): the swap `M1 → M0` fires exactly on the backlog and
active-model condition — there is no elapsed-time guard
(`model_swap_interval` is unused by the swap decision) — and on the swap
tick the controller first issues `(M1, 0)` to drain the outgoing model,
switches `current_model` to `M0`, and then actuates `M0` with the PD target
in the same tick. -/
theorem model_swap_same_tick (st : CtrlState) (now : ℚ)
    (hrate : sumRecent st.processing_rates now 2 ≠ 0)
    (hq : sumRecent st.queued_frames now 2 > 6000)
    (hm : st.current_model = M1)
    (hidx : st.current_model_index = 1)
    (hr : st.current_replica ≠ 0) :
    (control_step st now .success .success).patches =
      [(M1, 0),
        (M0, (pid_control Kp_adaptive Kd_adaptive capacity_adaptive st.previous_error
          (target_fps + sumRecent st.queued_frames now 2)).target)] ∧
    (control_step st now .success .success).state.current_model = M0 ∧
    (control_step st now .success .success).state.current_model_index = 0 ∧
    (control_step st now .success .success).raised = false := by
  have hswap : sumRecent st.queued_frames now 2 > 6000 ∧ st.current_model = M1 := ⟨hq, hm⟩
  have h0 : ¬((0 : Int) = st.current_replica) := fun h => hr h.symm
  have htgt : ¬((pid_control Kp_adaptive Kd_adaptive capacity_adaptive st.previous_error
      (target_fps + sumRecent st.queued_frames now 2)).target = (0 : Int)) := by
    have h1 : (1 : Int) ≤ (pid_control Kp_adaptive Kd_adaptive capacity_adaptive
        st.previous_error (target_fps + sumRecent st.queued_frames now 2)).target :=
      le_max_left 1 _
    omega
  refine ⟨?_, ?_, ?_, ?_⟩ <;>
    simp [control_step, hrate, hswap, take_action, h0, hidx, hm, models,
      finish_control, htgt]

/-- Concrete state for the C5 witness (distinct from the counterexample
state). -/
def c5wit : CtrlState :=
  { queued_frames := [("framesqueuedT", 100, 6500)]
    processing_rates := [("frameprocessingrateT", 100, 40)]
    previous_error := 100
    current_replica := 2
    current_model := M1
    current_model_index := 1 }

/-- Witness for the amended C5 at a concrete state. -/
theorem model_swap_same_tick_witness :
    (sumRecent c5wit.processing_rates 100 2 ≠ 0 ∧
      sumRecent c5wit.queued_frames 100 2 > 6000 ∧
      c5wit.current_model = M1 ∧
      c5wit.current_model_index = 1 ∧
      c5wit.current_replica ≠ 0) ∧
    ((control_step c5wit 100 .success .success).patches =
        [(M1, 0),
          (M0, (pid_control Kp_adaptive Kd_adaptive capacity_adaptive c5wit.previous_error
            (target_fps + sumRecent c5wit.queued_frames 100 2)).target)] ∧
      (control_step c5wit 100 .success .success).state.current_model = M0 ∧
      (control_step c5wit 100 .success .success).state.current_model_index = 0 ∧
      (control_step c5wit 100 .success .success).raised = false) :=
  ⟨⟨by norm_num [sumRecent, c5wit], by norm_num [sumRecent, c5wit], rfl, rfl, by decide⟩,
    model_swap_same_tick c5wit 100 (by norm_num [sumRecent, c5wit])
      (by norm_num [sumRecent, c5wit]) rfl rfl (by decide)⟩

/-- Initial state for the C6 counterexample. -/
def c6init : CtrlState :=
  { queued_frames := []
    processing_rates := []
    previous_error := 0
    current_replica := 1
    current_model := M1
    current_model_index := 1 }

/-- Claim C6 counterexample: the drain stores events by plain dict assignment with
no timestamp comparison; an event with timestamp `3`, processed after one
with timestamp `10`, overwrites it — the stored sample ends with the OLDER
timestamp `3`, not the maximum `10`. -/
theorem older_event_overwrites_newer :
    dictLookup "framesqueuedX"
        (drain_steps 100 2
          ([⟨"framesqueuedX", 10, 5⟩, ⟨"framesqueuedX", 3, 7⟩], c6init)).1.2.queued_frames
      = some (3, 7) ∧
    (3 : ℚ) < 10 := by
  constructor
  · rw [drain_steps_cons_le 100 c6init ⟨"framesqueuedX", 10, 5⟩ _ 1 (by norm_num),
      drain_steps_cons_le 100 _ ⟨"framesqueuedX", 3, 7⟩ _ 0 (by norm_num)]
    show dictLookup "framesqueuedX"
      (drainUpdate (drainUpdate c6init ⟨"framesqueuedX", 10, 5⟩)
        ⟨"framesqueuedX", 3, 7⟩).queued_frames = some (3, 7)
    rw [drainUpdate_queued, if_pos (by decide)]
    exact dictLookup_dictInsert_self _ _ _
  · norm_num

/-- Claim C6 (amended): the store keeps at most one sample per sensor key, and
that sample is the one from the most recently processed event, whatever its
timestamp: the dict write is an unconditional overwrite. -/
theorem store_last_write_wins (st : CtrlState) (m : Msg)
    (hname : strContains m.sensor "framesqueued" = true)
    (hq : keysNodup st.queued_frames) :
    dictLookup m.sensor (drainUpdate st m).queued_frames = some (m.timestamp, m.value) ∧
    keysNodup (drainUpdate st m).queued_frames := by
  rw [drainUpdate_queued, if_pos hname]
  exact ⟨dictLookup_dictInsert_self m.sensor (m.timestamp, m.value) st.queued_frames,
    keysNodup_dictInsert m.sensor (m.timestamp, m.value) st.queued_frames hq⟩

/-- Witness for the amended C6: overwrite a stored sample that carries a
newer timestamp. -/
theorem store_last_write_wins_witness :
    (strContains "framesqueuedY" "framesqueued" = true ∧
      keysNodup (CtrlState.queued_frames
        { queued_frames := [("framesqueuedY", 10, 5)]
          processing_rates := []
          previous_error := 0
          current_replica := 1
          current_model := M1
          current_model_index := 1 })) ∧
    (dictLookup "framesqueuedY"
        (drainUpdate
          { queued_frames := [("framesqueuedY", 10, 5)]
            processing_rates := []
            previous_error := 0
            current_replica := 1
            current_model := M1
            current_model_index := 1 }
          ⟨"framesqueuedY", 3, 7⟩).queued_frames = some (3, 7) ∧
      keysNodup (drainUpdate
          { queued_frames := [("framesqueuedY", 10, 5)]
            processing_rates := []
            previous_error := 0
            current_replica := 1
            current_model := M1
            current_model_index := 1 }
          ⟨"framesqueuedY", 3, 7⟩).queued_frames) :=
  ⟨⟨by decide, by decide⟩,
    store_last_write_wins _ ⟨"framesqueuedY", 3, 7⟩ (by decide) (by decide)⟩

/-- Initial state for the C7 theorems. -/
def c7init : CtrlState :=
  { queued_frames := []
    processing_rates := []
    previous_error := 0
    current_replica := 1
    current_model := M1
    current_model_index := 1 }

/-- Claim C7 counterexample: a future-stamped event (`timestamp 105` with
`now = 100`) makes the drain exit — but the event is stored FIRST, so after
the drain the store contains a sample with timestamp strictly greater than
`now`. -/
theorem future_sample_stored :
    (drain_steps 100 1 ([⟨"framesqueuedF", 105, 3⟩], c7init)).2 = true ∧
    dictLookup "framesqueuedF"
        (drain_steps 100 1 ([⟨"framesqueuedF", 105, 3⟩], c7init)).1.2.queued_frames
      = some (105, 3) ∧
    (100 : ℚ) < 105 := by
  have hstep : drain_steps 100 1 ([⟨"framesqueuedF", 105, 3⟩], c7init) =
      (([], drainUpdate c7init ⟨"framesqueuedF", 105, 3⟩), true) := by
    show (let r := drain_iter 100 ([⟨"framesqueuedF", 105, 3⟩], c7init);
      if r.2 then r else drain_steps 100 0 r.1) = _
    rw [drain_iter_cons_gt 100 c7init ⟨"framesqueuedF", 105, 3⟩ [] (by norm_num)]
    rfl
  rw [hstep]
  refine ⟨rfl, ?_, by norm_num⟩
  rw [drainUpdate_queued, if_pos (by decide)]
  exact dictLookup_dictInsert_self _ _ _

/-- Claim C7 (amended): on a future-stamped head message the drain stores the
message (the dict update precedes the `should_break` test) and only then
exits, leaving the rest of the queue unconsumed; so the store may contain
exactly that future-stamped sample after a drain. -/
theorem drain_stores_future_head_then_exits (now : ℚ) (st : CtrlState) (m : Msg)
    (rest : List Msg) (n : Nat) (h : now < m.timestamp) :
    drain_steps now (n + 1) (m :: rest, st) = ((rest, drainUpdate st m), true) := by
  simp [drain_steps, drain_iter_cons_gt now st m rest h]

/-- Witness for the amended C7. -/
theorem drain_stores_future_head_then_exits_witness :
    (100 : ℚ) < 105 ∧
    drain_steps 100 1 ([⟨"framesqueuedG", 105, 4⟩], c7init) =
      (([], drainUpdate c7init ⟨"framesqueuedG", 105, 4⟩), true) :=
  ⟨by norm_num,
    drain_stores_future_head_then_exits 100 c7init ⟨"framesqueuedG", 105, 4⟩ [] 0 (by norm_num)⟩

/-- Concrete state for the C8 theorems: nonzero rate, backlog below the
swap threshold, PD target different from the stored replica count. -/
def c8state : CtrlState :=
  { queued_frames := [("framesqueuedH", 100, 100)]
    processing_rates := [("frameprocessingrateH", 100, 10)]
    previous_error := 0
    current_replica := 1
    current_model := M1
    current_model_index := 1 }

/-- Claim C8 counterexample: when the orchestrator patch raises, the exception
escapes the tick body — `take_action` and `run` contain no try/except — so
the error is NOT recovered locally inside the control loop. -/
theorem patch_failure_escapes_loop :
    (control_step c8state 100 .success .failure).raised = true := by
  norm_num [control_step, finish_control, take_action, pid_control, sumRecent,
    c8state, target_fps, Kp_adaptive, Kd_adaptive, capacity_adaptive, M1]

/-- Claim C8 (amended): when the orchestrator patch fails, `current_replicas` is
not updated (the assignment follows the patch call) and no patch is
recorded, but the exception propagates out of the control block
unhandled — the loop does not recover locally and there is no automatic
next-tick retry. -/
theorem patch_failure_not_recorded (st : CtrlState) (now : ℚ) (o1 : PatchOutcome)
    (hrate : sumRecent st.processing_rates now 2 ≠ 0)
    (hnoswap : ¬(sumRecent st.queued_frames now 2 > 6000 ∧ st.current_model = M1))
    (hdiff : (pid_control Kp_adaptive Kd_adaptive capacity_adaptive st.previous_error
        (target_fps + sumRecent st.queued_frames now 2)).target ≠ st.current_replica) :
    control_step st now o1 .failure =
      { state := { st with previous_error := target_fps + sumRecent st.queued_frames now 2 }
        patches := []
        raised := true } := by
  simp [control_step, hrate, hnoswap, finish_control, take_action, hdiff,
    pid_new_previous_error]

/-- Witness for the amended C8 at a concrete state (the PD target is `16`
while `current_replica = 1`, and the backlog `100` is below the swap
threshold). -/
theorem patch_failure_not_recorded_witness :
    (sumRecent c8state.processing_rates 100 2 ≠ 0 ∧
      ¬(sumRecent c8state.queued_frames 100 2 > 6000 ∧ c8state.current_model = M1) ∧
      (pid_control Kp_adaptive Kd_adaptive capacity_adaptive c8state.previous_error
        (target_fps + sumRecent c8state.queued_frames 100 2)).target ≠
          c8state.current_replica) ∧
    control_step c8state 100 .success .failure =
      { state := { c8state with
          previous_error := target_fps + sumRecent c8state.queued_frames 100 2 }
        patches := []
        raised := true } :=
  ⟨⟨by norm_num [sumRecent, c8state],
      by norm_num [sumRecent, c8state, M1, deployment_name],
      by norm_num [pid_control, sumRecent, c8state, target_fps, Kp_adaptive,
        Kd_adaptive, capacity_adaptive]⟩,
    patch_failure_not_recorded c8state 100 .success
      (by norm_num [sumRecent, c8state])
      (by norm_num [sumRecent, c8state, M1, deployment_name])
      (by norm_num [pid_control, sumRecent, c8state, target_fps, Kp_adaptive,
        Kd_adaptive, capacity_adaptive])⟩

/-- Empty controller state for the C10 witness. -/
def c10init : CtrlState :=
  { queued_frames := []
    processing_rates := []
    previous_error := 0
    current_replica := 1
    current_model := M1
    current_model_index := 1 }

/-- Claim C10: the sensor store is keyed by the sensor-name string alone.  The
NRM callback discards the event's `scope` before enqueueing (its output is
invariant in `scope`), so two events from different pods carrying the same
sensor name land on the same dict key: the later-processed one overwrites
the earlier sample, and the key set stays duplicate-free, so windowed
aggregation sums one sample per distinct sensor-name string. -/
theorem store_keyed_by_sensor_name_alone
    (sensor : String) (t1 t2 : Int) (sc1 sc2 : String) (v1 v2 : ℚ) (st : CtrlState)
    (hname : strContains sensor "framesqueued" = true)
    (hnd : keysNodup st.queued_frames) :
    nrm_callback sensor t1 sc1 v1 = nrm_callback sensor t1 sc2 v1 ∧
    dictLookup sensor
        (drainUpdate (drainUpdate st (nrm_callback sensor t1 sc1 v1))
          (nrm_callback sensor t2 sc2 v2)).queued_frames
      = some ((t2 : ℚ) / 1000000000, v2) ∧
    keysNodup (drainUpdate (drainUpdate st (nrm_callback sensor t1 sc1 v1))
        (nrm_callback sensor t2 sc2 v2)).queued_frames := by
  refine ⟨rfl, ?_, ?_⟩
  · rw [drainUpdate_queued]
    simp only [nrm_callback, hname, if_pos]
    exact dictLookup_dictInsert_self _ _ _
  · rw [drainUpdate_queued, drainUpdate_queued]
    simp only [nrm_callback, hname, if_pos]
    exact keysNodup_dictInsert _ _ _ (keysNodup_dictInsert _ _ _ hnd)

/-- Witness for C10: two pods (`scopes "podA"` and `"podB"`) report the
same sensor name into an empty store. -/
theorem store_keyed_by_sensor_name_alone_witness :
    (strContains "framesqueued0" "framesqueued" = true ∧
      keysNodup (CtrlState.queued_frames c10init)) ∧
    (nrm_callback "framesqueued0" 1000000000 "podA" 5 =
        nrm_callback "framesqueued0" 1000000000 "podB" 5 ∧
      dictLookup "framesqueued0"
          (drainUpdate (drainUpdate c10init (nrm_callback "framesqueued0" 1000000000 "podA" 5))
            (nrm_callback "framesqueued0" 2000000000 "podB" 9)).queued_frames
        = some ((2000000000 : ℚ) / 1000000000, 9) ∧
      keysNodup (drainUpdate (drainUpdate c10init (nrm_callback "framesqueued0" 1000000000 "podA" 5))
          (nrm_callback "framesqueued0" 2000000000 "podB" 9)).queued_frames) :=
  ⟨⟨by decide, by decide⟩,
    store_keyed_by_sensor_name_alone "framesqueued0" 1000000000 2000000000 "podA" "podB" 5 9
      c10init (by decide) (by decide)⟩

end Charon
